import Mathlib

/-!
Verification development for the GPU fleet coordination subsystem
(`gpu_balance` package): shallow embedding of the process tracker, GPU
monitor, load history / threshold manager, task scheduler and load
balancer, together with theorems about the embedded operations.

Modelling conventions:
* Python ints are `Int`, Python floats are `ℚ` (exact rational arithmetic;
  the float literals 0.2/0.3/0.9 in the source are embedded as the
  rationals they denote).
* The Redis coordination store is embedded as explicit state: hashes as
  `Int → Option _` maps or association lists (`List (Int × _)`, preserving
  key-iteration order), sets as `Int → Bool` membership functions.
* Fallible store operations return their Python boolean result; a caught
  exception path is embedded as the value the `except` clause returns.
* Log output, the human-readable `reason`/`reasons` strings and the `name`
  / `power_usage` metric fields play no role in any claim and are omitted.
-/

namespace GpuBalance

/-- Python `int(x)` on a float: truncation toward zero. -/
def pyTrunc (x : ℚ) : Int := if 0 ≤ x then ⌊x⌋ else -(⌊-x⌋)

/-- Insert into a sorted list, after any element `b` with `le b a`. -/
def pyInsert (le : α → α → Bool) (a : α) : List α → List α
  | [] => [a]
  | b :: bs => if le a b then a :: b :: bs else b :: pyInsert le a bs

/-- Python's `list.sort` / `sorted`: a stable sort by a total preorder
`le` (the result of a stable sort is unique, so insertion sort embeds
timsort faithfully).  `le a b` must hold on ties for stability, e.g.
`key a ≤ key b` ascending or `key b ≤ key a` for `reverse=True`. -/
def pySort (le : α → α → Bool) : List α → List α
  | [] => []
  | a :: as => pyInsert le a (pySort le as)

/-! ### GPU metrics (gpu_monitor.GPUMetrics / the gpu:metrics:{id} hash)

One numeric-field record serves the monitor, the balancer and the
scheduler's `get_gpu_metrics` read-back of the published hash. -/

structure GPUMetrics where
  gpu_id : Int
  utilization : ℚ
  memory_used_mb : Int
  memory_total_mb : Int
  memory_free_mb : Int
  temperature : Int
  num_processes : Int
  timestamp : ℚ
deriving Repr, DecidableEq

/-- The Redis metric hashes `gpu:metrics:{id}`, in key-iteration order. -/
abbrev MetricsStore := List (Int × GPUMetrics)

/-- `hgetall(f"gpu:metrics:{gpu_id}")`: the hash under the GPU's key, if
present. -/
def lookupMetrics (store : MetricsStore) (gpu_id : Int) : Option GPUMetrics :=
  match store with
  | [] => none
  | (k, v) :: rest => if k = gpu_id then some v else lookupMetrics rest gpu_id

/-- The `memory_free` read inside `utils.get_available_gpus`: the source
calls `metrics.get(b'memory_free_mb', 0)` (utils.py:275) with a bytes
key, but every caller constructs its Redis client with
`decode_responses=True`, whose `hgetall` returns a str-keyed dict; the
bytes key never matches, so the read always yields the default 0,
whatever the stored value is. -/
def bytesKeyMemoryFree (_metrics : GPUMetrics) : Int := 0

/-- The `utilization` read inside `utils.get_available_gpus`:
`metrics.get(b'utilization', 0)` (utils.py:276), same bytes-key miss as
`bytesKeyMemoryFree`, so it always yields the default 0. -/
def bytesKeyUtilization (_metrics : GPUMetrics) : ℚ := 0

/-- `utils.get_available_gpus`: filter the published metric hashes by
`memory_free >= min_memory_mb and utilization <= max_utilization` —
where both values come from the bytes-key reads above and are therefore
always 0 — and return the ids sorted ascending.  In particular the
result is `[]` whenever `min_memory_mb > 0`. -/
def get_available_gpus (store : MetricsStore) (min_memory_mb : Int)
    (max_utilization : ℚ) : List Int :=
  pySort (fun a b => decide (a ≤ b))
    ((store.filter (fun p =>
      decide (bytesKeyMemoryFree p.2 ≥ min_memory_mb) &&
      decide (bytesKeyUtilization p.2 ≤ max_utilization))).map (·.1))

/-! ### Task scheduler (task_scheduler.py) -/

/-- `task_scheduler.AllocationScore` (the `reasons` strings are omitted). -/
structure AllocationScore where
  gpu_id : Int
  score : ℚ
  utilization : ℚ
  memory_free_mb : Int
  num_processes : Int
deriving Repr, DecidableEq

/-- Memory term of `TaskScheduler.score_gpu`: 0 below `min_memory`, else
`min(30, 30*(mem_free - min_memory)/(8000 - min_memory))`. -/
def memScore (min_memory : Int) (mem_free : Int) : ℚ :=
  if mem_free ≥ min_memory then
    min 30 (30 * ((mem_free : ℚ) - (min_memory : ℚ)) / (8000 - (min_memory : ℚ)))
  else 0

/-- The score record `TaskScheduler.score_gpu` builds when the
temperature branch is not entered (`temperature ≤ 0`): utilization term
+ memory term + process term.  No temperature term is ever added in a
returning run, because the branch that would compute one raises first —
see `scoreMetrics`. -/
def scoreValue (min_memory : Int) (gpu_id : Int) (m : GPUMetrics) :
    AllocationScore :=
  let utilScore : ℚ := max 0 (40 * (1 - m.utilization / 100))
  let mScore : ℚ := memScore min_memory m.memory_free_mb
  let procScore : ℚ := max 0 (20 * (1 - (m.num_processes : ℚ) / 5))
  { gpu_id := gpu_id
    score := utilScore + mScore + procScore
    utilization := m.utilization
    memory_free_mb := m.memory_free_mb
    num_processes := m.num_processes }

/-- Body of `TaskScheduler.score_gpu` once metrics were found.  When
`temperature > 0` the source reads
`self.config.gpu_balancing['thresholds']['max_temperature']`
(task_scheduler.py:168); `GPUBalanceConfig` defines `thresholds` but no
`gpu_balancing` attribute, so the read raises `AttributeError` (there is
no `try` in `score_gpu`) and no score is produced — modeled as `none`. -/
def scoreMetrics (min_memory : Int) (gpu_id : Int) (m : GPUMetrics) :
    Option AllocationScore :=
  if m.temperature > 0 then none
  else some (scoreValue min_memory gpu_id m)

/-- `TaskScheduler.score_gpu`: read the GPU's metric hash; with no
metrics return the minimum score record, otherwise score the metrics
(raising, i.e. `none`, when the temperature branch is entered).
`min_memory` comes from the (adaptive) thresholds. -/
def score_gpu (store : MetricsStore) (min_memory : Int) (gpu_id : Int) :
    Option AllocationScore :=
  match lookupMetrics store gpu_id with
  | none =>
      some { gpu_id := gpu_id, score := 0, utilization := 100
             memory_free_mb := 0, num_processes := 999 }
  | some m => scoreMetrics min_memory gpu_id m

/-! ### Threshold manager (threshold_manager.py) -/

/-- `threshold_manager.ThresholdConfig` (the `reason` string is omitted). -/
structure ThresholdConfig where
  min_memory_mb : Int
  max_utilization : ℚ
  util_high_threshold : ℚ
  util_low_threshold : ℚ
  adaptive : Bool
  last_adjusted : ℚ
deriving Repr, DecidableEq

/-- One entry of the `hour_loads` list built inside
`ThresholdManager.get_adaptive_thresholds` from a GPU's hour pattern:
average utilization, peak utilization and average memory used
(`LoadPattern.avg_memory_used_mb` is an int). -/
structure HourLoad where
  gpu_id : Int
  avg_util : ℚ
  peak_util : ℚ
  avg_memory : Int
deriving Repr, DecidableEq

/-- `ThresholdManager.get_adaptive_thresholds`, returning both the
resulting configuration and the configuration written back to the store
by `_save_thresholds` (`none` when nothing is saved).  The caller-visible
inputs are the currently stored configuration, the `hour_loads` list
gathered for the current hour, the current hour and the current time.
`peak_utilization = max(l.peak_util)` is computed by the source but not
used in any threshold, so it does not appear below. -/
def get_adaptive_thresholds (current : ThresholdConfig)
    (hour_loads : List HourLoad) (current_hour : Nat) (now : ℚ) :
    ThresholdConfig × Option ThresholdConfig :=
  if !current.adaptive then (current, none)
  else if hour_loads.isEmpty then (current, none)
  else
    let n : ℚ := hour_loads.length
    let avg_utilization : ℚ := (hour_loads.map (·.avg_util)).sum / n
    let avg_memory : ℚ := ((hour_loads.map (·.avg_memory)).sum : ℚ) / n
    let is_daytime := decide (8 ≤ current_hour) && decide (current_hour ≤ 20)
    let util_high0 : ℚ :=
      if is_daytime then min 95 (avg_utilization + 15)
      else min 90 (avg_utilization + 10)
    let util_low0 : ℚ :=
      if is_daytime then max 40 (avg_utilization - 20)
      else max 50 (avg_utilization - 15)
    let min_memory0 : Int :=
      if is_daytime then max 1500 (pyTrunc (avg_memory * (2 / 10)))
      else max 2000 (pyTrunc (avg_memory * (3 / 10)))
    let util_high : ℚ := max 70 (min 95 util_high0)
    let util_low : ℚ := max 30 (min 60 util_low0)
    let min_memory : Int := max 1000 (min 4000 min_memory0)
    let new_thresholds : ThresholdConfig :=
      { min_memory_mb := min_memory
        max_utilization := 95
        util_high_threshold := util_high
        util_low_threshold := util_low
        adaptive := true
        last_adjusted := now }
    (new_thresholds, some new_thresholds)

/-! ### Task scheduler: allocation and recommendation -/

/-- The optional `constraints` dict of `TaskScheduler.allocate_gpu`. -/
structure AllocConstraints where
  min_memory_mb : Option Int := none
  max_utilization : Option ℚ := none
  specific_gpu : Option Int := none
deriving Repr, DecidableEq

/-- The `for gpu_id in available_gpus: scores.append(self.score_gpu(...))`
loop of `allocate_gpu`: a `none` from `score_gpu` (its `AttributeError`)
aborts the whole loop, propagating to the caller's `except`. -/
def scoreAll (store : MetricsStore) (min_memory : Int) :
    List Int → Option (List AllocationScore)
  | [] => some []
  | g :: gs =>
    match score_gpu store min_memory g, scoreAll store min_memory gs with
    | some s, some ss => some (s :: ss)
    | _, _ => none

/-- Score the candidates and return the id of the highest-scored one
(`scores.sort(key=..., reverse=True)` is a stable descending sort, then
`scores[0]`); `none` when scoring raised. -/
def pickBest (store : MetricsStore) (thr_min_memory : Int)
    (available : List Int) : Option Int :=
  match scoreAll store thr_min_memory available with
  | none => none
  | some scores =>
    ((pySort (fun a b => decide (b.score ≤ a.score)) scores).head?).map
      (·.gpu_id)

/-- `TaskScheduler.allocate_gpu`.  With `constraints = None` the source
evaluates `constraints.get('min_memory_mb', ...)`, which raises
`AttributeError`; the surrounding `except` swallows it and the call
returns `None` — embedded as the `none` branch.  Otherwise availability
uses the constraint overrides (through the bytes-key-broken
`get_available_gpus`) while `score_gpu` re-reads the adaptive
thresholds' `min_memory_mb`; an exception escaping the scoring loop is
also swallowed into `None`. -/
def allocate_gpu (store : MetricsStore) (thresholds : ThresholdConfig)
    (constraints : Option AllocConstraints) : Option Int :=
  match constraints with
  | none => none
  | some c =>
    let min_memory := c.min_memory_mb.getD thresholds.min_memory_mb
    let max_util := c.max_utilization.getD thresholds.max_utilization
    let available := get_available_gpus store min_memory max_util
    if available.isEmpty then none
    else
      match c.specific_gpu with
      | some sg =>
          if available.contains sg then some sg
          else pickBest store thresholds.min_memory_mb available
      | none => pickBest store thresholds.min_memory_mb available

/-- `TaskScheduler.recommend_allocation`: before any strategy branch the
source reads `self.config.gpu_balancing['thresholds']['min_memory_mb']`
and `...['max_utilization']` (task_scheduler.py:364-365) to call
`get_available_gpus`; `GPUBalanceConfig` has no `gpu_balancing`
attribute, so the read raises `AttributeError`, the surrounding `except`
catches it, and the function always returns strategy "error" with an
empty id list — the spread/balanced/concentrate logic further down is
unreachable. -/
def recommend_allocation (_store : MetricsStore) (_num_tasks : Int) :
    String × List Int :=
  ("error", [])

/-! ### GPU monitor (gpu_monitor.py) -/

/-- Filter of `GPUMonitor.update_available_gpus`: the ids of this tick's
metrics that satisfy `memory_free_mb >= min_memory` and
`utilization <= max_util`, in `metrics_dict` iteration order. -/
def update_available_gpus (metrics_dict : List (Int × GPUMetrics))
    (min_memory : Int) (max_util : ℚ) : List Int :=
  (metrics_dict.filter (fun p =>
    decide (p.2.memory_free_mb ≥ min_memory) &&
    decide (p.2.utilization ≤ max_util))).map (·.1)

/-- Publication of the `gpu:available` set: delete-then-rewrite, so the
new membership function ignores the previous set entirely (when the new
list is empty the key is only deleted, which is the empty set as well). -/
def publish_available (_prev : Int → Bool) (available : List Int) :
    Int → Bool :=
  fun g => available.contains g

/-! ### Load balancer (load_balancer.py) -/

/-- `GPUStatus.is_overloaded`: `utilization > 85.0 or
memory_used/memory_total > 0.9` (in ℚ, division by a zero total yields 0,
matching the source's short-circuit in the only case the balancer ever
evaluates the predicate, see `detect_imbalance`). -/
def is_overloaded (m : GPUMetrics) : Bool :=
  decide (m.utilization > 85) ||
  decide ((m.memory_used_mb : ℚ) / (m.memory_total_mb : ℚ) > 9 / 10)

/-- `GPUStatus.is_idle`: `utilization < 50.0 and memory_free_mb > 2000`. -/
def is_idle (m : GPUMetrics) : Bool :=
  decide (m.utilization < 50) && decide (m.memory_free_mb > 2000)

/-- `GPUStatus.load_score = (utilization + 100·memory_used/memory_total)/2`. -/
def load_score (m : GPUMetrics) : ℚ :=
  (m.utilization + (m.memory_used_mb : ℚ) / (m.memory_total_mb : ℚ) * 100) / 2

/-- Result dict of `LoadBalancer.detect_imbalance` (the `details` and
`avg_load` entries are omitted: no claim mentions them). -/
structure ImbalanceResult where
  is_imbalanced : Bool
  overloaded_gpus : List Int
  idle_gpus : List Int
  load_variance : ℚ
deriving Repr, DecidableEq

/-- The default result returned for an empty `metrics_dict` and by the
`except` clause. -/
def emptyImbalance : ImbalanceResult :=
  { is_imbalanced := false, overloaded_gpus := [], idle_gpus := []
    load_variance := 0 }

/-- `GPUMonitor._log_summary`: its summary line interpolates
`total_free_mb`, a name never bound (the summed variable is `total_free`,
gpu_monitor.py:239 vs 245), so the call raises `NameError` whenever the
collected `metrics_dict` is non-empty. -/
def log_summary_raises (metrics_dict : List (Int × GPUMetrics)) : Bool :=
  !metrics_dict.isEmpty

/-- `GPUMonitor.monitor_once` on an already-collected snapshot: an empty
collection returns immediately; otherwise the metrics are published and
the available set updated, and then the final `_log_summary` call raises
`NameError` — the escaping exception is modeled as `none`. -/
def monitor_once (collected : List (Int × GPUMetrics)) :
    Option (List (Int × GPUMetrics)) :=
  if collected.isEmpty then some collected
  else if log_summary_raises collected then none
  else some collected

/-- Imbalance computation of `LoadBalancer.detect_imbalance`
(load_balancer.py:167-216) over a non-empty snapshot.  A GPU with
`memory_total_mb = 0` makes `load_score` raise `ZeroDivisionError`
inside the status loop; the surrounding `except` returns the default
result, embedded as the guard. -/
def detect_imbalance_body (metrics_dict : List (Int × GPUMetrics)) :
    ImbalanceResult :=
  if metrics_dict.any (fun p => p.2.memory_total_mb == 0) then
    emptyImbalance
  else
    let overloaded := (metrics_dict.filter (fun p => is_overloaded p.2)).map (·.1)
    let idle := (metrics_dict.filter (fun p => is_idle p.2)).map (·.1)
    let load_scores := metrics_dict.map (fun p => load_score p.2)
    let variance : ℚ :=
      if 1 < load_scores.length then
        let avg := load_scores.sum / (load_scores.length : ℚ)
        ((load_scores.map (fun x => (x - avg) ^ 2)).sum) / (load_scores.length : ℚ)
      else 0
    { is_imbalanced := !overloaded.isEmpty && !idle.isEmpty
      overloaded_gpus := overloaded
      idle_gpus := idle
      load_variance := variance }

/-- `LoadBalancer.detect_imbalance`: the snapshot is obtained via
`self.gpu_monitor.monitor_once()` inside the method's `try`
(load_balancer.py:157).  The `NameError` `monitor_once` raises for every
non-empty collection reaches the `except`, which returns the default
result; an empty snapshot returns the default as well — so the imbalance
computation in `detect_imbalance_body` is unreachable for any non-empty
collection and the function never reports imbalance. -/
def detect_imbalance (collected : List (Int × GPUMetrics)) :
    ImbalanceResult :=
  match monitor_once collected with
  | none => emptyImbalance
  | some metrics_dict =>
    if metrics_dict.isEmpty then emptyImbalance
    else detect_imbalance_body metrics_dict

/-! ### Load history (history.py) and metric collection
(threshold_manager.collect_metrics) -/

/-- `LoadHistory.raw_data_retention_days` (history.py `__init__`). -/
def raw_data_retention_days : Int := 7

/-- `LoadHistory.hourly_data_retention_days` (history.py `__init__`). -/
def hourly_data_retention_days : Int := 30

/-- One Redis write of a load sample: the key it goes under and the
expiry (seconds) passed to `expire`. -/
structure SampleWrite where
  key_gpu : Int
  key_timestamp : Int
  expire_seconds : Int
deriving Repr, DecidableEq

/-- `LoadHistory.add_data_point`: the raw-sample hash write and the
timeline-index expiry, both set to `raw_data_retention_days * 24 * 3600`
seconds. -/
def add_data_point (gpu_id : Int) (timestamp : ℚ) : SampleWrite × Int :=
  (⟨gpu_id, pyTrunc timestamp, raw_data_retention_days * 24 * 3600⟩,
   raw_data_retention_days * 24 * 3600)

/-- `ThresholdManager.collect_metrics`: for every GPU in `metrics_dict`
one detail hash `load:history:{gpu}:{int(ts)}` is written and given an
expiry of `30 * 24 * 3600` seconds. -/
def collect_metrics (metrics_dict : List (Int × GPUMetrics)) (now : ℚ) :
    List SampleWrite :=
  metrics_dict.map (fun p => ⟨p.1, pyTrunc now, 30 * 24 * 3600⟩)

/-! ### Process tracker (process_tracker.py)

The `process:{pid}` Redis hash can hold any subset of the record fields:
`register_process` writes all of them, while `update_heartbeat` on an
unknown pid creates a hash holding only `last_heartbeat` and the supplied
counters.  Every field is therefore optional here. -/

/-- The raw `process:{pid}` hash. -/
structure ProcHash where
  pid : Option Int := none
  gpu_id : Option Int := none
  proc_type : Option String := none
  status : Option String := none
  priority : Option Int := none
  start_time : Option ℚ := none
  last_heartbeat : Option ℚ := none
  games_completed : Option Int := none
  iteration : Option Int := none
deriving Repr, DecidableEq

/-- `process_tracker.ProcessInfo`. -/
structure ProcessInfo where
  pid : Int
  gpu_id : Int
  proc_type : String
  status : String
  priority : Int
  start_time : ℚ
  last_heartbeat : ℚ
  games_completed : Int := 0
  iteration : Int := 0
deriving Repr, DecidableEq

/-- The tracker's three store indices: the record-by-pid hashes
(`process:{pid}`, `none` = key absent), the per-GPU pid sets
(`gpu:{g}:processes`) and the global registry hash
(`process:registry`, pid → proc_type). -/
structure TrackerState where
  procHash : Int → Option ProcHash
  gpuProcs : Int → Int → Bool
  registry : Int → Option String

/-- The store with none of the tracker keys present. -/
def emptyTracker : TrackerState :=
  { procHash := fun _ => none, gpuProcs := fun _ _ => false
    registry := fun _ => none }

/-- `ProcessTracker.get_process_info`: `hgetall` an absent key gives `{}`
→ `None`; a present hash missing any of the fields read explicitly
(`pid`, `gpu_id`, `status`, `priority`, `start_time`, `last_heartbeat`)
raises `KeyError`, and one missing `proc_type` makes
`ProcessInfo(**data)` raise `TypeError`; both are caught → `None`.
`games_completed`/`iteration` default to 0 via `data.get`. -/
def get_process_info (s : TrackerState) (pid : Int) : Option ProcessInfo :=
  match s.procHash pid with
  | none => none
  | some h =>
    match h.pid, h.gpu_id, h.proc_type, h.status, h.priority,
        h.start_time, h.last_heartbeat with
    | some p, some g, some ty, some st, some pr, some t0, some hb =>
        some { pid := p, gpu_id := g, proc_type := ty, status := st
               priority := pr, start_time := t0, last_heartbeat := hb
               games_completed := h.games_completed.getD 0
               iteration := h.iteration.getD 0 }
    | _, _, _, _, _, _, _ => none

/-- `ProcessTracker.register_process`: write the full record hash, add
the pid to the GPU's process set and register pid → proc_type; always
reports `True` (absent a store failure). -/
def register_process (s : TrackerState) (pid gpu_id : Int)
    (proc_type : String) (priority : Int) (now : ℚ) :
    TrackerState × Bool :=
  ({ procHash := fun q =>
       if q = pid then
         some { pid := some pid, gpu_id := some gpu_id
                proc_type := some proc_type, status := some "running"
                priority := some priority, start_time := some now
                last_heartbeat := some now, games_completed := some 0
                iteration := some 0 }
       else s.procHash q
     gpuProcs := fun g q =>
       if g = gpu_id ∧ q = pid then true else s.gpuProcs g q
     registry := fun q => if q = pid then some proc_type else s.registry q },
   true)

/-- The `**kwargs` of `update_heartbeat`, restricted to the counter
fields the workers supply. -/
structure HeartbeatFields where
  games_completed : Option Int := none
  iteration : Option Int := none
deriving Repr, DecidableEq

/-- Effect of `hset(f"process:{pid}", mapping=heartbeat_data)` on an
existing hash: overwrite `last_heartbeat` and any supplied counters,
leave every other field as it is. -/
def hbMerge (h : ProcHash) (now : ℚ) (kw : HeartbeatFields) : ProcHash :=
  { h with
    last_heartbeat := some now
    games_completed := match kw.games_completed with
      | some v => some v
      | none => h.games_completed
    iteration := match kw.iteration with
      | some v => some v
      | none => h.iteration }

/-- `ProcessTracker.update_heartbeat`: `hset` the heartbeat data onto
`process:{pid}` — creating the hash when the key is absent — and report
`True`.  There is no existence check. -/
def update_heartbeat (s : TrackerState) (pid : Int) (now : ℚ)
    (kw : HeartbeatFields) : TrackerState × Bool :=
  ({ s with procHash := fun q =>
      if q = pid then
        some (hbMerge ((s.procHash pid).getD {}) now kw)
      else s.procHash q },
   true)

/-- The `hset(..., mapping={'status': 'stuck'})` a heartbeat-timeout scan
(`check_heartbeats`) performs on one stale process: only applied to pids
whose record is readable and whose heartbeat age exceeds the timeout. -/
def mark_stuck (s : TrackerState) (pid : Int) (now timeout : ℚ) :
    TrackerState :=
  match s.procHash pid, get_process_info s pid with
  | some h, some info =>
      if now - info.last_heartbeat > timeout then
        { s with procHash := fun q =>
            if q = pid then some { h with status := some "stuck" }
            else s.procHash q }
      else s
  | _, _ => s

/-- `ProcessTracker.unregister_process`: look the record up first; when
it is unreadable, report `False` and touch nothing.  Otherwise `srem` the
pid from the set of its record's GPU, `hdel` it from the registry, delete
the record hash, and report `True`.  (`cleanup_stale_processes` performs
the same three removals per stale pid.) -/
def unregister_process (s : TrackerState) (pid : Int) :
    TrackerState × Bool :=
  match get_process_info s pid with
  | none => (s, false)
  | some info =>
    ({ procHash := fun q => if q = pid then none else s.procHash q
       gpuProcs := fun g q =>
         if g = info.gpu_id ∧ q = pid then false else s.gpuProcs g q
       registry := fun q => if q = pid then none else s.registry q },
     true)

/-- The tracker operations that mutate the three indices. -/
inductive TrackerOp where
  | reg (pid gpu_id : Int) (proc_type : String) (priority : Int) (now : ℚ)
  | hb (pid : Int) (now : ℚ) (kw : HeartbeatFields)
  | scan (pid : Int) (now timeout : ℚ)
  | unreg (pid : Int)

/-- State transition of one tracker operation. -/
def applyOp : TrackerOp → TrackerState → TrackerState
  | .reg pid g ty pr now, s => (register_process s pid g ty pr now).1
  | .hb pid now kw, s => (update_heartbeat s pid now kw).1
  | .scan pid now timeout, s => mark_stuck s pid now timeout
  | .unreg pid, s => (unregister_process s pid).1

/-- Store states reachable from the empty store through tracker
operations. -/
inductive Reachable : TrackerState → Prop where
  | init : Reachable emptyTracker
  | step {s : TrackerState} (o : TrackerOp) : Reachable s →
      Reachable (applyOp o s)

/-! ### Invariant predicate and concrete instances used by the theorems -/

/-- Hash-level invariant of the tracker store: whatever record hash
exists for a pid, if it carries a `gpu_id` field then the pid is a member
of that GPU's process set. -/
def hashInv (s : TrackerState) : Prop :=
  ∀ pid h g, s.procHash pid = some h → h.gpu_id = some g → s.gpuProcs g pid = true

/-- A sample metric snapshot (for concrete evaluations). -/
def sampleMetrics : GPUMetrics := ⟨0, 50, 9000, 10000, 1000, 0, 1, 0⟩

/-- The C2 scenario store: GPU0 with 1000 MB free (below the 2000 MB
floor), GPU1 with utilization 20, 8000 MB free, 0 processes and
temperature reporting disabled (temperature 0). -/
def storeC2 : MetricsStore :=
  [(0, ⟨0, 50, 9000, 10000, 1000, 0, 1, 0⟩),
   (1, ⟨1, 20, 2000, 10000, 8000, 0, 0, 0⟩)]

/-- The C2 scenario thresholds: min_memory 2000, max_utilization 90. -/
def thrC2 : ThresholdConfig := ⟨2000, 90, 85, 50, false, 0⟩

/-- An overloaded GPU (utilization 90 > 85). -/
def mOver : GPUMetrics := ⟨0, 90, 900, 1000, 100, 0, 2, 0⟩

/-- An idle GPU (utilization 20 < 50, 8000 MB > 2000 MB free). -/
def mIdle : GPUMetrics := ⟨1, 20, 2000, 10000, 8000, 0, 0, 0⟩

/-- A snapshot holding one overloaded and one idle GPU. -/
def storeImb : List (Int × GPUMetrics) := [(0, mOver), (1, mIdle)]

/-- Metrics used to instantiate the score-shape theorem. -/
def mMono : GPUMetrics := ⟨1, 20, 2000, 10000, 8000, 0, 0, 0⟩

/-- Metrics with a positive temperature reading (50 °C): scoring them
enters the temperature branch and raises. -/
def mHot : GPUMetrics := ⟨1, 20, 2000, 10000, 8000, 50, 0, 0⟩

/-- Three available GPUs for the recommendation scenario. -/
def storeR : MetricsStore :=
  [(0, ⟨0, 30, 3000, 10000, 7000, 0, 1, 0⟩),
   (1, ⟨1, 20, 2000, 10000, 8000, 0, 0, 0⟩),
   (2, ⟨2, 40, 4000, 10000, 6000, 0, 2, 0⟩)]

/-- Tracker store after registering pid 7 on GPU 0 at time 50. -/
def regState : TrackerState := (register_process emptyTracker 7 0 "collect" 5 50).1

/-- The record hash `register_process` writes for pid 7. -/
def regHash : ProcHash :=
  { pid := some 7, gpu_id := some 0, proc_type := some "collect"
    status := some "running", priority := some 5, start_time := some 50
    last_heartbeat := some 50, games_completed := some 0, iteration := some 0 }

/-- The `ProcessInfo` read back for pid 7 in `regState`. -/
def regInfo : ProcessInfo :=
  { pid := 7, gpu_id := 0, proc_type := "collect", status := "running"
    priority := 5, start_time := 50, last_heartbeat := 50
    games_completed := 0, iteration := 0 }

/-- A stored configuration with `adaptive` enabled and `max_utilization`
80 (so the adaptive overwrite to 95 is observable). -/
def thrAdp : ThresholdConfig := ⟨3000, 80, 85, 50, true, 0⟩

/-- A single hour pattern for the adaptive-threshold witnesses. -/
def loadsAdp : List HourLoad := [⟨0, 50, 60, 3000⟩]

/-! ### Helper lemmas -/

theorem length_pyInsert (le : α → α → Bool) (a : α) (l : List α) :
    (pyInsert le a l).length = l.length + 1 := by
  induction l with
  | nil => rfl
  | cons b bs ih =>
    simp only [pyInsert]
    by_cases h : le a b = true
    · simp [h]
    · simp [h, ih]

theorem length_pySort (le : α → α → Bool) (l : List α) :
    (pySort le l).length = l.length := by
  induction l with
  | nil => rfl
  | cons a as ih => simp [pySort, length_pyInsert, ih]

theorem hashInv_empty : hashInv emptyTracker := by
  intro pid h g hph
  simp [emptyTracker] at hph

theorem hbMerge_gpu_id (h : ProcHash) (now : ℚ) (kw : HeartbeatFields) :
    (hbMerge h now kw).gpu_id = h.gpu_id := rfl

theorem mark_stuck_shape (s : TrackerState) (pid : Int) (now timeout : ℚ) :
    (mark_stuck s pid now timeout).gpuProcs = s.gpuProcs ∧
    ∀ p, ((mark_stuck s pid now timeout).procHash p = s.procHash p ∨
      ∃ h, s.procHash p = some h ∧
        (mark_stuck s pid now timeout).procHash p =
          some { h with status := some "stuck" }) := by
  unfold mark_stuck
  split
  next h info hq hi =>
    split
    next hcond =>
      refine ⟨rfl, fun p => ?_⟩
      by_cases hp : p = pid
      · subst hp
        exact Or.inr ⟨h, hq, by simp⟩
      · exact Or.inl (by simp [hp])
    next hcond =>
      exact ⟨rfl, fun p => Or.inl rfl⟩
  next =>
    exact ⟨rfl, fun p => Or.inl rfl⟩

theorem hashInv_applyOp (o : TrackerOp) (s : TrackerState) (hinv : hashInv s) :
    hashInv (applyOp o s) := by
  cases o with
  | reg pid g ty pr now =>
    intro p ph gg hph hgid
    simp only [applyOp, register_process] at hph ⊢
    by_cases hp : p = pid
    · subst hp
      rw [if_pos rfl] at hph
      injection hph with h2
      subst h2
      injection hgid with h3
      subst h3
      simp
    · rw [if_neg hp] at hph
      rw [if_neg (fun hc => hp hc.2)]
      exact hinv p ph gg hph hgid
  | hb pid now kw =>
    intro p ph gg hph hgid
    simp only [applyOp, update_heartbeat] at hph ⊢
    by_cases hp : p = pid
    · subst hp
      rw [if_pos rfl] at hph
      injection hph with h2
      subst h2
      rw [hbMerge_gpu_id] at hgid
      cases hq : s.procHash p with
      | none =>
        rw [hq] at hgid
        simp [Option.getD] at hgid
      | some h1 =>
        rw [hq] at hgid
        exact hinv p h1 gg hq hgid
    · rw [if_neg hp] at hph
      exact hinv p ph gg hph hgid
  | scan pid now timeout =>
    intro p ph gg hph hgid
    obtain ⟨hgp, hshape⟩ := mark_stuck_shape s pid now timeout
    simp only [applyOp] at hph ⊢
    rw [show (mark_stuck s pid now timeout).gpuProcs = s.gpuProcs from hgp]
    rcases hshape p with he | ⟨h1, hh1, he⟩
    · rw [he] at hph
      exact hinv p ph gg hph hgid
    · rw [he] at hph
      injection hph with h2
      subst h2
      exact hinv p h1 gg hh1 hgid
  | unreg pid =>
    intro p ph gg hph hgid
    simp only [applyOp, unregister_process] at hph ⊢
    cases hi : get_process_info s pid with
    | none =>
      simp only [hi] at hph ⊢
      exact hinv p ph gg hph hgid
    | some info =>
      simp only [hi] at hph ⊢
      replace hph : (if p = pid then none else s.procHash p) = some ph := hph
      show (if gg = info.gpu_id ∧ p = pid then false else s.gpuProcs gg p) = true
      by_cases hp : p = pid
      · subst hp
        rw [if_pos rfl] at hph
        exact absurd hph (by simp)
      · rw [if_neg hp] at hph
        rw [if_neg (fun hc => hp hc.2)]
        exact hinv p ph gg hph hgid

theorem reachable_hashInv {s : TrackerState} (h : Reachable s) : hashInv s := by
  induction h with
  | init => exact hashInv_empty
  | step o _ ih => exact hashInv_applyOp o _ ih

theorem get_process_info_some {s : TrackerState} {pid : Int} {info : ProcessInfo}
    (h : get_process_info s pid = some info) :
    ∃ ph, s.procHash pid = some ph ∧ ph.gpu_id = some info.gpu_id := by
  unfold get_process_info at h
  split at h
  · exact absurd h (by simp)
  next ph heq =>
    split at h
    next p g ty st pr t0 hb hp hg hty hst hpr ht0 hhb =>
      injection h with h2
      subst h2
      exact ⟨ph, heq, hg⟩
    next =>
      exact absurd h (by simp)

/-! ### Claim theorems -/

/-- C1 (counterexample): with no record for pid 7 in the empty store,
`update_heartbeat` reports `true` (the claim says it fails by reporting
`false`) and even creates a partial record hash holding only
`last_heartbeat`. -/
theorem heartbeat_missing_record_counterexample :
    get_process_info emptyTracker 7 = none ∧
    (update_heartbeat emptyTracker 7 100 {}).2 = true ∧
    (update_heartbeat emptyTracker 7 100 {}).1.procHash 7 =
      some { last_heartbeat := some 100 } :=
  ⟨rfl, rfl, rfl⟩

/-- C1 (amended): `update_heartbeat` reports `true` whether or not a
record exists; on an existing record hash it overwrites `last_heartbeat`
and the supplied counter fields and leaves every other field, every other
pid's hash, the per-GPU sets and the registry unchanged; on a missing
record it creates a hash holding only the heartbeat data. -/
theorem heartbeat_updates_unconditionally (s : TrackerState) (pid : Int)
    (now : ℚ) (kw : HeartbeatFields) :
    (update_heartbeat s pid now kw).2 = true ∧
    (∀ h, s.procHash pid = some h →
      (update_heartbeat s pid now kw).1.procHash pid = some (hbMerge h now kw)) ∧
    (s.procHash pid = none →
      (update_heartbeat s pid now kw).1.procHash pid = some (hbMerge {} now kw)) ∧
    (∀ h : ProcHash,
      (hbMerge h now kw).last_heartbeat = some now ∧
      (hbMerge h now kw).pid = h.pid ∧
      (hbMerge h now kw).gpu_id = h.gpu_id ∧
      (hbMerge h now kw).proc_type = h.proc_type ∧
      (hbMerge h now kw).status = h.status ∧
      (hbMerge h now kw).priority = h.priority ∧
      (hbMerge h now kw).start_time = h.start_time ∧
      (∀ v, kw.games_completed = some v → (hbMerge h now kw).games_completed = some v) ∧
      (kw.games_completed = none → (hbMerge h now kw).games_completed = h.games_completed) ∧
      (∀ v, kw.iteration = some v → (hbMerge h now kw).iteration = some v) ∧
      (kw.iteration = none → (hbMerge h now kw).iteration = h.iteration)) ∧
    (∀ q, q ≠ pid → (update_heartbeat s pid now kw).1.procHash q = s.procHash q) ∧
    (update_heartbeat s pid now kw).1.gpuProcs = s.gpuProcs ∧
    (update_heartbeat s pid now kw).1.registry = s.registry := by
  refine ⟨rfl, ?_, ?_, ?_, ?_, rfl, rfl⟩
  · intro h hh
    simp [update_heartbeat, hh]
  · intro hh
    simp [update_heartbeat, hh]
  · intro h
    refine ⟨rfl, rfl, rfl, rfl, rfl, rfl, rfl, ?_, ?_, ?_, ?_⟩
    · intro v hv; simp [hbMerge, hv]
    · intro hv; simp [hbMerge, hv]
    · intro v hv; simp [hbMerge, hv]
    · intro hv; simp [hbMerge, hv]
  · intro q hq
    simp only [update_heartbeat, if_neg hq]

/-- Witness for C1 at the registered state `regState`. -/
theorem heartbeat_updates_unconditionally_witness :
    regState.procHash 7 = some regHash ∧
    (update_heartbeat regState 7 60 {}).2 = true ∧
    (update_heartbeat regState 7 60 {}).1.procHash 7 = some (hbMerge regHash 60 {}) ∧
    (7 : Int) ≠ 8 ∧
    (update_heartbeat regState 7 60 {}).1.procHash 8 = regState.procHash 8 :=
  ⟨rfl, (heartbeat_updates_unconditionally regState 7 60 {}).1,
   (heartbeat_updates_unconditionally regState 7 60 {}).2.1 regHash rfl,
   by decide,
   (heartbeat_updates_unconditionally regState 7 60 {}).2.2.2.2.1 8 (by decide)⟩

/-- C2: in the scenario store, `score_gpu` does give GPU1 exactly
32 + 30 + 20 = 82 points, but `allocate_gpu` never returns GPU1:
invoked with no constraints dict it returns `none` (the
`constraints.get` call raises on `None` and the handler returns `None`),
and even with a constraints dict the candidate list is empty because
`get_available_gpus`' bytes-key reads see 0 free memory for every GPU,
so the call still returns `none`. -/
theorem collect_scenario_evaluation :
    (score_gpu storeC2 2000 1).map (·.score) = some 82 ∧
    get_available_gpus storeC2 2000 90 = [] ∧
    allocate_gpu storeC2 thrC2 none = none ∧
    allocate_gpu storeC2 thrC2 (some {}) = none := by
  refine ⟨?_, rfl, rfl, rfl⟩
  norm_num [score_gpu, storeC2, scoreMetrics, scoreValue, memScore, lookupMetrics]

/-- C3 (counterexample): from the reachable store in which only a partial
heartbeat-created hash exists for pid 7, `unregister_process 7` reports
`false` and removes nothing — pid 7 is still present in the record-by-pid
index afterwards, so the removal is not unconditional. -/
theorem unregister_requires_record_counterexample :
    Reachable (update_heartbeat emptyTracker 7 100 {}).1 ∧
    (unregister_process (update_heartbeat emptyTracker 7 100 {}).1 7).2 = false ∧
    (unregister_process (update_heartbeat emptyTracker 7 100 {}).1 7).1.procHash 7 =
      some { last_heartbeat := some 100 } :=
  ⟨Reachable.step (TrackerOp.hb 7 100 {}) Reachable.init, rfl, rfl⟩

/-- C3 (amended): in every reachable store, a pid with a readable record
whose `gpu_id` is `g` is a member of GPU `g`'s process set; when the
record is readable, `unregister_process` reports `true` and removes the
pid from the record-by-pid hash, the registry and the set of its
record's GPU; when it is not readable, it reports `false` and leaves the
store untouched. -/
theorem registry_invariant_and_unregister :
    (∀ s, Reachable s → ∀ pid info, get_process_info s pid = some info →
      s.gpuProcs info.gpu_id pid = true) ∧
    (∀ s pid info, get_process_info s pid = some info →
      (unregister_process s pid).2 = true ∧
      (unregister_process s pid).1.procHash pid = none ∧
      (unregister_process s pid).1.registry pid = none ∧
      (unregister_process s pid).1.gpuProcs info.gpu_id pid = false) ∧
    (∀ s pid, get_process_info s pid = none →
      (unregister_process s pid).2 = false ∧ (unregister_process s pid).1 = s) := by
  refine ⟨?_, ?_, ?_⟩
  · intro s hs pid info hinfo
    obtain ⟨ph, hph, hgid⟩ := get_process_info_some hinfo
    exact reachable_hashInv hs pid ph info.gpu_id hph hgid
  · intro s pid info hinfo
    simp only [unregister_process, hinfo]
    refine ⟨trivial, ?_, ?_, ?_⟩
    · simp
    · simp
    · simp
  · intro s pid hinfo
    simp only [unregister_process, hinfo]
    exact ⟨trivial, trivial⟩

/-- Witness for C3 at the reachable state `regState`. -/
theorem registry_invariant_and_unregister_witness :
    Reachable regState ∧
    get_process_info regState 7 = some regInfo ∧
    regState.gpuProcs 0 7 = true ∧
    (unregister_process regState 7).2 = true ∧
    (unregister_process regState 7).1.procHash 7 = none ∧
    (unregister_process regState 7).1.registry 7 = none ∧
    (unregister_process regState 7).1.gpuProcs 0 7 = false :=
  ⟨Reachable.step (TrackerOp.reg 7 0 "collect" 5 50) Reachable.init, rfl,
   registry_invariant_and_unregister.1 regState
     (Reachable.step (TrackerOp.reg 7 0 "collect" 5 50) Reachable.init) 7 regInfo rfl,
   (registry_invariant_and_unregister.2.1 regState 7 regInfo rfl).1,
   (registry_invariant_and_unregister.2.1 regState 7 regInfo rfl).2.1,
   (registry_invariant_and_unregister.2.1 regState 7 regInfo rfl).2.2.1,
   (registry_invariant_and_unregister.2.1 regState 7 regInfo rfl).2.2.2⟩

/-- C4: a GPU with no fresh metrics in this tick's `metrics_dict` is
never a member of the published available set, regardless of the previous
set's contents, and the published set holds exactly the GPUs whose
current metrics satisfy the thresholds. -/
theorem expired_metrics_never_available (metrics_dict : List (Int × GPUMetrics))
    (min_memory : Int) (max_util : ℚ) (prev : Int → Bool) (g : Int)
    (hstale : g ∉ metrics_dict.map Prod.fst) :
    publish_available prev (update_available_gpus metrics_dict min_memory max_util) g = false ∧
    (∀ g', publish_available prev (update_available_gpus metrics_dict min_memory max_util) g' = true ↔
      ∃ m, (g', m) ∈ metrics_dict ∧ m.memory_free_mb ≥ min_memory ∧
        m.utilization ≤ max_util) := by
  have hmem : ∀ g', (publish_available prev
      (update_available_gpus metrics_dict min_memory max_util) g' = true) ↔
      ∃ m, (g', m) ∈ metrics_dict ∧ m.memory_free_mb ≥ min_memory ∧
        m.utilization ≤ max_util := by
    intro g'
    simp only [publish_available, update_available_gpus, List.elem_iff,
      List.mem_map, List.mem_filter, Bool.and_eq_true, decide_eq_true_eq]
    constructor
    · rintro ⟨⟨k, m⟩, ⟨hm, hc1, hc2⟩, rfl⟩
      exact ⟨m, hm, hc1, hc2⟩
    · rintro ⟨m, hm, hc1, hc2⟩
      exact ⟨⟨g', m⟩, ⟨hm, hc1, hc2⟩, rfl⟩
  refine ⟨?_, hmem⟩
  by_contra hne
  rw [Bool.not_eq_false, hmem g] at hne
  obtain ⟨m, hm, -, -⟩ := hne
  exact hstale (List.mem_map.2 ⟨(g, m), hm, rfl⟩)

/-- Witness for C4: GPU 0 has no fresh metrics (only GPU 1 does), so it
is excluded even though the previous published set contained every id. -/
theorem expired_metrics_never_available_witness :
    (0 : Int) ∉ ([(1, mIdle)] : List (Int × GPUMetrics)).map Prod.fst ∧
    publish_available (fun _ => true) (update_available_gpus [(1, mIdle)] 2000 90) 0 = false :=
  ⟨by simp, (expired_metrics_never_available [(1, mIdle)] 2000 90
    (fun _ => true) 0 (by simp)).1⟩

/-- C5 (counterexample): the detail sample written by
`ThresholdManager.collect_metrics` carries a 30-day expiry
(2 592 000 s), not the claimed 7-day expiry. -/
theorem collect_metrics_expiry_counterexample :
    collect_metrics [(0, sampleMetrics)] 1000 = [⟨0, 1000, 2592000⟩] ∧
    (2592000 : Int) ≠ raw_data_retention_days * 24 * 3600 := by
  refine ⟨?_, by simp [raw_data_retention_days]⟩
  simp only [collect_metrics, List.map_cons, List.map_nil, pyTrunc]
  norm_num

/-- C5 (amended): `LoadHistory.add_data_point` stores raw samples (and
the timeline index) with a 7-day expiry, while
`ThresholdManager.collect_metrics` stores its per-(gpu, timestamp)
history samples with a 30-day expiry. -/
theorem raw_sample_expiry (gpu_id : Int) (ts : ℚ)
    (metrics_dict : List (Int × GPUMetrics)) (now : ℚ) :
    (add_data_point gpu_id ts).1.expire_seconds = 7 * 24 * 3600 ∧
    (add_data_point gpu_id ts).2 = 7 * 24 * 3600 ∧
    (collect_metrics metrics_dict now).all
      (fun w => w.expire_seconds == 30 * 24 * 3600) = true := by
  refine ⟨rfl, rfl, ?_⟩
  simp only [collect_metrics, List.all_eq_true, List.mem_map]
  rintro w ⟨⟨k, m⟩, hm, rfl⟩
  rfl

/-- C6 (code evaluation): on a snapshot with one overloaded and one idle
GPU the claimed predicates hold — and the (unreachable) imbalance
computation would report `true` — yet the shipped `detect_imbalance`
returns the default no-imbalance result: `monitor_once` raises
`NameError` in `_log_summary` before the computation ever runs, so
`is_imbalanced` is `false` although both predicate sets are non-empty,
refuting the biconditional. -/
theorem imbalance_never_reported :
    storeImb.filter (fun p => is_overloaded p.2) ≠ [] ∧
    storeImb.filter (fun p => is_idle p.2) ≠ [] ∧
    (detect_imbalance_body storeImb).is_imbalanced = true ∧
    detect_imbalance storeImb = emptyImbalance ∧
    (detect_imbalance storeImb).is_imbalanced = false := by
  refine ⟨?_, ?_, ?_, rfl, rfl⟩
  · norm_num [storeImb, mOver, mIdle, is_overloaded, is_idle, List.filter]
  · norm_num [storeImb, mOver, mIdle, is_overloaded, is_idle, List.filter]
  · norm_num [detect_imbalance_body, storeImb, mOver, mIdle, is_overloaded,
      is_idle, List.filter, List.any]

/-- C7: whenever the adaptive branch actually recomputes (adaptive
enabled and at least one hour pattern), the produced thresholds satisfy
`util_high ∈ [70, 95]`, `util_low ∈ [30, 60]` and
`min_memory ∈ [1000, 4000]`, for any input averages. -/
theorem adaptive_thresholds_bounds (current : ThresholdConfig)
    (hour_loads : List HourLoad) (current_hour : Nat) (now : ℚ)
    (hadaptive : current.adaptive = true) (hne : hour_loads ≠ []) :
    (70 ≤ (get_adaptive_thresholds current hour_loads current_hour now).1.util_high_threshold ∧
      (get_adaptive_thresholds current hour_loads current_hour now).1.util_high_threshold ≤ 95) ∧
    (30 ≤ (get_adaptive_thresholds current hour_loads current_hour now).1.util_low_threshold ∧
      (get_adaptive_thresholds current hour_loads current_hour now).1.util_low_threshold ≤ 60) ∧
    (1000 ≤ (get_adaptive_thresholds current hour_loads current_hour now).1.min_memory_mb ∧
      (get_adaptive_thresholds current hour_loads current_hour now).1.min_memory_mb ≤ 4000) := by
  have hie : hour_loads.isEmpty = false := by
    cases hour_loads with
    | nil => exact absurd rfl hne
    | cons a as => rfl
  simp only [get_adaptive_thresholds, hadaptive, hie, Bool.not_true, Bool.false_eq_true,
    if_false, if_true]
  exact ⟨⟨le_max_left _ _, max_le (by norm_num) (min_le_left _ _)⟩,
    ⟨le_max_left _ _, max_le (by norm_num) (min_le_left _ _)⟩,
    ⟨le_max_left _ _, max_le (by norm_num) (min_le_left _ _)⟩⟩

/-- Witness for C7 at a concrete adaptive configuration. -/
theorem adaptive_thresholds_bounds_witness :
    thrAdp.adaptive = true ∧ loadsAdp ≠ [] ∧
    (70 ≤ (get_adaptive_thresholds thrAdp loadsAdp 12 0).1.util_high_threshold ∧
      (get_adaptive_thresholds thrAdp loadsAdp 12 0).1.util_high_threshold ≤ 95) ∧
    (1000 ≤ (get_adaptive_thresholds thrAdp loadsAdp 12 0).1.min_memory_mb ∧
      (get_adaptive_thresholds thrAdp loadsAdp 12 0).1.min_memory_mb ≤ 4000) :=
  ⟨rfl, by simp [loadsAdp],
   ⟨(adaptive_thresholds_bounds thrAdp loadsAdp 12 0 rfl (by simp [loadsAdp])).1.1,
    (adaptive_thresholds_bounds thrAdp loadsAdp 12 0 rfl (by simp [loadsAdp])).1.2⟩,
   ⟨(adaptive_thresholds_bounds thrAdp loadsAdp 12 0 rfl (by simp [loadsAdp])).2.2.1,
    (adaptive_thresholds_bounds thrAdp loadsAdp 12 0 rfl (by simp [loadsAdp])).2.2.2⟩⟩

/-- C8 (counterexample): for metrics with a positive temperature reading
the program computes no score at all — `score_gpu` enters the
temperature branch and raises `AttributeError` on the undefined
`config.gpu_balancing` attribute (modeled as `none`) — so the claimed
monotonicity/memory properties of "the score" fail for such fixed
metric fields. -/
theorem score_temperature_counterexample :
    mHot.temperature = 50 ∧
    scoreMetrics 2000 1 mHot = none ∧
    score_gpu [(1, mHot)] 2000 1 = none :=
  ⟨rfl, rfl, rfl⟩

/-- C8 (amended): for metrics with `temperature ≤ 0` — the only metrics
the shipped `score_gpu` can score — the score it produces is
`scoreValue`, which is non-increasing in utilization and in process
count with all other fields fixed; the memory contribution is exactly 0
below the memory floor and exactly 30 (its saturation value) at or above
8000 MB free (for any memory floor below 8000, which the adaptive clamp
to at most 4000 guarantees). -/
theorem score_monotone_and_memory_saturation (min_memory : Int) (g : Int)
    (m : GPUMetrics) (u1 u2 : ℚ) (p1 p2 : Int)
    (htemp : m.temperature ≤ 0) :
    scoreMetrics min_memory g m = some (scoreValue min_memory g m) ∧
    (u1 ≤ u2 →
      (scoreValue min_memory g { m with utilization := u2 }).score ≤
      (scoreValue min_memory g { m with utilization := u1 }).score) ∧
    (p1 ≤ p2 →
      (scoreValue min_memory g { m with num_processes := p2 }).score ≤
      (scoreValue min_memory g { m with num_processes := p1 }).score) ∧
    (m.memory_free_mb < min_memory → memScore min_memory m.memory_free_mb = 0) ∧
    (min_memory < 8000 → 8000 ≤ m.memory_free_mb →
      memScore min_memory m.memory_free_mb = 30) := by
  refine ⟨?_, ?_, ?_, ?_, ?_⟩
  · simp [scoreMetrics, not_lt.2 htemp]
  · intro hu
    simp only [scoreValue]
    have h40 : 40 * (1 - u2 / 100) ≤ 40 * (1 - u1 / 100) := by linarith
    exact add_le_add_right (add_le_add_right (max_le_max le_rfl h40) _) _
  · intro hp
    simp only [scoreValue]
    have hc : (p1 : ℚ) ≤ (p2 : ℚ) := by exact_mod_cast hp
    have h20 : 20 * (1 - (p2 : ℚ) / 5) ≤ 20 * (1 - (p1 : ℚ) / 5) := by linarith
    exact add_le_add_left (max_le_max le_rfl h20) _
  · intro hlt
    simp [memScore, not_le.2 hlt]
  · intro hmm hfree
    have hcond : m.memory_free_mb ≥ min_memory := le_trans (le_of_lt hmm) hfree
    have hpos : (0 : ℚ) < 8000 - (min_memory : ℚ) := by
      have : (min_memory : ℚ) < 8000 := by exact_mod_cast hmm
      linarith
    have hfq : (8000 : ℚ) ≤ (m.memory_free_mb : ℚ) := by exact_mod_cast hfree
    have h30 : (30 : ℚ) ≤
        30 * ((m.memory_free_mb : ℚ) - (min_memory : ℚ)) / (8000 - (min_memory : ℚ)) := by
      rw [le_div_iff₀ hpos]
      nlinarith
    simp only [memScore, hcond, if_true, min_eq_left h30]

/-- Witness for C8 on concrete metrics with temperature 0. -/
theorem score_monotone_and_memory_saturation_witness :
    mMono.temperature ≤ 0 ∧
    scoreMetrics 2000 1 mMono = some (scoreValue 2000 1 mMono) ∧
    ((10 : ℚ) ≤ 20 ∧
      (scoreValue 2000 1 { mMono with utilization := 20 }).score ≤
      (scoreValue 2000 1 { mMono with utilization := 10 }).score) ∧
    ((0 : Int) ≤ 1 ∧
      (scoreValue 2000 1 { mMono with num_processes := 1 }).score ≤
      (scoreValue 2000 1 { mMono with num_processes := 0 }).score) ∧
    ((2000 : Int) < 8000 ∧ 8000 ≤ mMono.memory_free_mb ∧
      memScore 2000 mMono.memory_free_mb = 30) :=
  ⟨by decide,
   (score_monotone_and_memory_saturation 2000 1 mMono 10 20 0 1 (by decide)).1,
   ⟨by norm_num,
    (score_monotone_and_memory_saturation 2000 1 mMono 10 20 0 1
      (by decide)).2.1 (by norm_num)⟩,
   ⟨by norm_num,
    (score_monotone_and_memory_saturation 2000 1 mMono 10 20 0 1
      (by decide)).2.2.1 (by norm_num)⟩,
   ⟨by norm_num, by norm_num [mMono],
    (score_monotone_and_memory_saturation 2000 1 mMono 10 20 0 1
      (by decide)).2.2.2.2 (by norm_num) (by norm_num [mMono])⟩⟩

/-- C9 (code evaluation): at the claimed scenario — the store publishing
three GPUs that would satisfy the thresholds, 8 tasks —
`recommend_allocation` returns strategy "error" with no GPU ids, never
"concentrate" with one id: the `config.gpu_balancing` read raises before
any strategy branch runs, and independently `get_available_gpus`'
bytes-key reads leave the candidate list empty. -/
theorem recommend_always_error :
    recommend_allocation storeR 8 = ("error", []) ∧
    (recommend_allocation storeR 8).1 ≠ "concentrate" ∧
    (recommend_allocation storeR 8).2.length = 0 ∧
    get_available_gpus storeR 2000 90 = [] :=
  ⟨rfl, by decide, rfl, rfl⟩

/-- C10: whenever the adaptive branch recomputes, the returned
configuration's `max_utilization` is exactly 95 — whatever the stored
configuration held — and exactly this configuration is persisted. -/
theorem adaptive_overwrites_max_utilization (current : ThresholdConfig)
    (hour_loads : List HourLoad) (current_hour : Nat) (now : ℚ)
    (hadaptive : current.adaptive = true) (hne : hour_loads ≠ []) :
    (get_adaptive_thresholds current hour_loads current_hour now).1.max_utilization = 95 ∧
    (get_adaptive_thresholds current hour_loads current_hour now).2 =
      some (get_adaptive_thresholds current hour_loads current_hour now).1 := by
  have hie : hour_loads.isEmpty = false := by
    cases hour_loads with
    | nil => exact absurd rfl hne
    | cons a as => rfl
  simp only [get_adaptive_thresholds, hadaptive, hie, Bool.not_true, Bool.false_eq_true,
    if_false, if_true]
  exact ⟨trivial, trivial⟩

/-- Witness for C10 at a stored configuration whose `max_utilization` is
80: the recomputation still returns and persists 95. -/
theorem adaptive_overwrites_max_utilization_witness :
    thrAdp.adaptive = true ∧ loadsAdp ≠ [] ∧ thrAdp.max_utilization = 80 ∧
    (get_adaptive_thresholds thrAdp loadsAdp 12 0).1.max_utilization = 95 ∧
    (get_adaptive_thresholds thrAdp loadsAdp 12 0).2 =
      some (get_adaptive_thresholds thrAdp loadsAdp 12 0).1 :=
  ⟨rfl, by simp [loadsAdp], rfl,
   (adaptive_overwrites_max_utilization thrAdp loadsAdp 12 0 rfl (by simp [loadsAdp])).1,
   (adaptive_overwrites_max_utilization thrAdp loadsAdp 12 0 rfl (by simp [loadsAdp])).2⟩

end GpuBalance
